import Mathlib

/-!
Shallow embedding of the Job_analyzer repository (`src/app.py`, a Streamlit
application around a single LLM call) and proofs about its claims.

Modelling choices, stated once:

* Third-party library behaviour (`json.loads`, `pydantic`, `pypdf`, `docx`,
  `ollama`, `streamlit`) is not source code of this repository.  We embed the
  boundary of each library faithfully to its documented behaviour:
  - `json.loads` is abstracted by its outcome: either a `JSONDecodeError`
    (the input string was not valid JSON) or a Python value (`PyVal`).
  - pydantic v2 validation of `AnalysisResult(**data)` is embedded field by
    field, including its default lenient ("lax") coercions: an `int` field
    accepts a Python `int`, an integral `float`, or a string that
    pydantic-core's lax cleaning turns into an integer literal (it trims
    whitespace, strips a trailing all-zeros fractional part, and removes
    underscore separators, so `" 60"`, `"60.0"` and `"6_0"` all coerce);
    a `str` field accepts exactly strings; a `List[str]` field accepts
    exactly lists of strings; `bool` is rejected for `int` (pydantic v2
    rejects bool-to-int).  Extra keys are ignored (pydantic's default
    `extra='ignore'`).
  - `pypdf`'s pages and `python-docx`'s paragraphs are abstracted by the
    list of extracted text per page / per paragraph (a page with no
    extractable text contributes the empty string, as `page.extract_text()`
    does).
* `st.error` / `st.warning` side effects are modelled as data: the analyzer
  returns both an optional result and the optional error message it showed.
-/

namespace JobAnalyzer

/-- A Python value as produced by `json.loads` (floats are modelled as
rationals, which is enough to decide pydantic's "integral float" coercion). -/
inductive PyVal where
  | pyNone : PyVal
  | pyBool (b : Bool) : PyVal
  | pyInt (i : Int) : PyVal
  | pyFloat (q : Rat) : PyVal
  | pyStr (s : String) : PyVal
  | pyList (xs : List PyVal) : PyVal
  | pyDict (kvs : List (String × PyVal)) : PyVal

/-- Key lookup in a Python dict coming from `json.loads` (keys are unique
there, so first-match lookup agrees with Python's dict semantics). -/
def pyLookup (kvs : List (String × PyVal)) (k : String) : Option PyVal :=
  match kvs with
  | [] => none
  | (k', v) :: rest => if k' = k then some v else pyLookup rest k

/-- Decimal-digit accumulator: consumes the remaining characters, failing
on the first non-digit. -/
def parseNatDigits : List Char → Nat → Option Nat
  | [], acc => some acc
  | c :: cs, acc =>
      if c.isDigit then parseNatDigits cs (acc * 10 + (c.toNat - 48)) else none

/-- One or more decimal digits. -/
def parseNatStr : List Char → Option Nat
  | [] => none
  | cs => parseNatDigits cs 0

/-- Optional single sign, then one or more decimal digits. -/
def parseSignedDigits : List Char → Option Int
  | '-' :: rest => (parseNatStr rest).map (fun n => -(n : Int))
  | '+' :: rest => (parseNatStr rest).map (fun n => (n : Int))
  | cs => (parseNatStr cs).map (fun n => (n : Int))

/-- Whitespace for pydantic-core's trim of numeric strings. -/
def isTrimChar (c : Char) : Bool :=
  c == ' ' || c == '\t' || c == '\n' || c == '\r' || c == '\x0b' || c == '\x0c'

/-- Leading and trailing whitespace removed. -/
def trimChars (cs : List Char) : List Char :=
  ((cs.dropWhile isTrimChar).reverse.dropWhile isTrimChar).reverse

/-- Strip a trailing all-zeros fractional part, as pydantic-core does when
lax-parsing an int from a string: everything after the first point must be
zeros (so `"60.00"` cleans to `"60"`, `"60.5"` is rejected outright); a
string with no point is left unchanged. -/
def stripFracZeros : List Char → Option (List Char)
  | [] => some []
  | c :: cs =>
      if c = '.' then
        if cs.all (· == '0') then some [] else none
      else
        (stripFracZeros cs).map (fun rest => c :: rest)

/-- Pydantic-core's lax string-to-int (`str_as_int` / `clean_int_str`):
trim whitespace, strip a trailing all-zeros fractional part, remove
underscore digit separators, then parse an optionally signed run of
decimal digits.  Accepts e.g. `" 60"`, `"+60"`, `"60.0"`, `"6_0"`;
rejects `"60.5"`, `"abc"`, `""`. -/
def str_to_int (s : String) : Option Int :=
  (stripFracZeros (trimChars s.data)).bind
    (fun cs => parseSignedDigits (cs.filter (fun c => !(c == '_'))))

/-- Pydantic v2 lax coercion to `int`: accepts `int`, an integral `float`,
or a string that pydantic-core's lax cleaning parses as an integer
(`str_to_int`); rejects `bool` and everything else. -/
def lax_int : PyVal → Option Int
  | .pyInt i => some i
  | .pyFloat q => if q.den = 1 then some q.num else none
  | .pyStr s => str_to_int s
  | _ => none

/-- Pydantic v2 lax coercion to `str` on JSON-origin data: strings only. -/
def lax_str : PyVal → Option String
  | .pyStr s => some s
  | _ => none

/-- Pydantic v2 lax coercion to `List[str]` on JSON-origin data: a list
whose every element is a string. -/
def lax_str_list : PyVal → Option (List String)
  | .pyList xs => xs.mapM lax_str
  | _ => none

/-- The `AnalysisResult` pydantic model from `src/app.py` lines 14-19.
Note: in the source, `matching_score` is a plain `int` (the 0-100 range
appears only in the `Field` description, not as a constraint) and
`suitability_status` is a plain `str` (the four allowed values appear only
in the description, not as a `Literal`/enum constraint). -/
structure AnalysisResult where
  matching_score : Int
  existing_skills : List String
  missing_skills : List String
  recommended_improvements : List String
  suitability_status : String

/-- `AnalysisResult(**data)` (line 85): pydantic validates each declared
field from the dict; a missing key or a value failing the field's lax
coercion raises `ValidationError`; extra keys are ignored; a non-dict value
(so that `**data` itself fails) is a `TypeError`.  Both are failures. -/
def AnalysisResult.validate (v : PyVal) : Option AnalysisResult :=
  match v with
  | .pyDict kvs =>
    match (pyLookup kvs "matching_score").bind lax_int,
          (pyLookup kvs "existing_skills").bind lax_str_list,
          (pyLookup kvs "missing_skills").bind lax_str_list,
          (pyLookup kvs "recommended_improvements").bind lax_str_list,
          (pyLookup kvs "suitability_status").bind lax_str with
    | some ms, some ex, some mi, some ri, some ss =>
        some ⟨ms, ex, mi, ri, ss⟩
    | _, _, _, _, _ => none
  | _ => none

/-- `validated_data.model_dump()` (line 86): the validated record back as a
dict with exactly the five declared fields, in declaration order. -/
def AnalysisResult.model_dump (r : AnalysisResult) : PyVal :=
  .pyDict
    [("matching_score", .pyInt r.matching_score),
     ("existing_skills", .pyList (r.existing_skills.map .pyStr)),
     ("missing_skills", .pyList (r.missing_skills.map .pyStr)),
     ("recommended_improvements", .pyList (r.recommended_improvements.map .pyStr)),
     ("suitability_status", .pyStr r.suitability_status)]

/-- Outcome of the `ollama.chat` call plus the `json.loads` parse of the
returned content, as seen by `get_ollama_analysis`:
* `responseError e`: `ollama.ResponseError` was raised (line 88);
* `unexpectedError e`: any other exception escaped the call or the content
  access (caught by the generic handler, line 94);
* `content (Except.error e)`: the call returned a string that is not valid
  JSON, so `json.loads` raised `JSONDecodeError` (line 91);
* `content (Except.ok v)`: the returned string parsed to the value `v`. -/
inductive ModelResponse where
  | responseError (e : String) : ModelResponse
  | unexpectedError (e : String) : ModelResponse
  | content (parsed : Except String PyVal) : ModelResponse

/-- What one call to `get_ollama_analysis` produces: the returned value
(`None` is `none`) and the error message passed to `st.error`, if any. -/
structure AnalyzeOutcome where
  result : Option PyVal
  errorShown : Option String

/-- `get_ollama_analysis` (lines 37-96), as a function of the model-call
outcome.  The `try` body parses and validates; `except ollama.ResponseError`
and `except json.JSONDecodeError` show their messages and return `None`; a
pydantic `ValidationError` (and any other exception) reaches the generic
`except Exception` handler, which also shows a message and returns `None`. -/
def get_ollama_analysis (resp : ModelResponse) : AnalyzeOutcome :=
  match resp with
  | .responseError e => ⟨none, some ("Ollama API Error: " ++ e)⟩
  | .unexpectedError e => ⟨none, some ("An unexpected error occurred: " ++ e)⟩
  | .content (.error _) =>
      ⟨none, some "Failed to parse LLM response. The model did not return valid JSON."⟩
  | .content (.ok v) =>
      match AnalysisResult.validate v with
      | some r => ⟨some r.model_dump, none⟩
      | none => ⟨none, some ("An unexpected error occurred: " ++ "ValidationError")⟩

/-- `extract_text_from_pdf` (lines 22-27), over the list of per-page
extracted texts: starts from `""` and appends each page's text in order. -/
def extract_text_from_pdf (pages : List String) : String :=
  pages.foldl (fun text page => text ++ page) ""

/-- `extract_text_from_docx` (lines 29-34), over the list of paragraph
texts: starts from `""` and appends each paragraph's text plus `"\n"`. -/
def extract_text_from_docx (paras : List String) : String :=
  paras.foldl (fun text para => text ++ para ++ "\n") ""

/-- What the analyze-button branch of `main` (lines 129-134) does. -/
inductive MainAction where
  | warnMissingInput : MainAction
  | runAnalysis (resume_text jd_input : String) : MainAction

/-- The guard in `main` (lines 129-134): `if not jd_input or not
resume_text:` warns; otherwise `get_ollama_analysis(resume_text, jd_input)`
is invoked.  Python string truthiness: `not s` holds iff `s` is empty. -/
def main_analyze_step (jd_input resume_text : String) : MainAction :=
  if jd_input = "" ∨ resume_text = "" then .warnMissingInput
  else .runAnalysis resume_text jd_input

/-- Specification-side text of a PDF (spec, section 4.1): each page's
extracted text concatenated in page order, written directly by recursion. -/
def pdf_spec_text : List String → String
  | [] => ""
  | p :: rest => p ++ pdf_spec_text rest

/-- Specification-side text of a word-processing document (spec, section
4.1): each paragraph's text followed by one newline, in document order. -/
def docx_spec_text : List String → String
  | [] => ""
  | p :: rest => p ++ "\n" ++ docx_spec_text rest

/-- The five field names of `AnalysisResult`, in declaration order. -/
def analysis_fields : List String :=
  ["matching_score", "existing_skills", "missing_skills",
   "recommended_improvements", "suitability_status"]

/-- The keys of a Python dict value. -/
def pyKeys : PyVal → List String
  | .pyDict kvs => kvs.map Prod.fst
  | _ => []

/-- Scenario A mocked model response (spec, section 8): its key-value
pairs as parsed by `json.loads`. -/
def scenarioA_kvs : List (String × PyVal) :=
  [("matching_score", .pyInt 60),
   ("existing_skills", .pyList [.pyStr "Python"]),
   ("missing_skills", .pyList [.pyStr "Kubernetes"]),
   ("recommended_improvements", .pyList [.pyStr "Add Kubernetes experience"]),
   ("suitability_status", .pyStr "Potential Match")]

/-- Scenario A mocked model response (spec, section 8), as parsed JSON. -/
def scenarioA_json : PyVal := .pyDict scenarioA_kvs

/-- One extra, non-schema key, for exercising pydantic's
`extra='ignore'` behaviour. -/
def extra_note : List (String × PyVal) := [("note", PyVal.pyNone)]

/-- Scenario C mocked model response (spec, section 8): `matching_score`
150, every other field well formed. -/
def scenarioC_json : PyVal := .pyDict
  [("matching_score", .pyInt 150),
   ("existing_skills", .pyList [.pyStr "Python"]),
   ("missing_skills", .pyList [.pyStr "Kubernetes"]),
   ("recommended_improvements", .pyList [.pyStr "Add Kubernetes experience"]),
   ("suitability_status", .pyStr "Qualified")]

/-- A model response that is schema-conforming except that
`suitability_status` is not one of the four enumerated values. -/
def badStatus_json : PyVal := .pyDict
  [("matching_score", .pyInt 70),
   ("existing_skills", .pyList [.pyStr "Python"]),
   ("missing_skills", .pyList []),
   ("recommended_improvements", .pyList []),
   ("suitability_status", .pyStr "Banana")]

/-- A model response whose `matching_score` is the JSON string `"60"`:
the wrong JSON type for an integer field, but coercible under pydantic's
default lax rules. -/
def stringScore_json : PyVal := .pyDict
  [("matching_score", .pyStr "60"),
   ("existing_skills", .pyList [.pyStr "Python"]),
   ("missing_skills", .pyList []),
   ("recommended_improvements", .pyList []),
   ("suitability_status", .pyStr "Qualified")]

theorem pyLookup_eq_none {k : String} : ∀ {kvs : List (String × PyVal)},
    (∀ p ∈ kvs, p.1 ≠ k) → pyLookup kvs k = none
  | [], _ => rfl
  | (k', v) :: rest, h => by
      have hk : k' ≠ k := h (k', v) (List.mem_cons_self _ _)
      simp only [pyLookup, if_neg hk]
      exact pyLookup_eq_none fun p hp => h p (List.mem_cons_of_mem _ hp)

theorem pyLookup_append {k : String} {extra : List (String × PyVal)}
    (h : ∀ p ∈ extra, p.1 ≠ k) :
    ∀ kvs : List (String × PyVal), pyLookup (kvs ++ extra) k = pyLookup kvs k
  | [] => by simpa [pyLookup] using pyLookup_eq_none h
  | (k', v) :: rest => by
      by_cases hk : k' = k <;> simp [pyLookup, hk, pyLookup_append h rest]

theorem pdf_foldl_eq (pages : List String) :
    ∀ acc : String,
      pages.foldl (fun text page => text ++ page) acc = acc ++ pdf_spec_text pages := by
  induction pages with
  | nil => intro acc; simp [pdf_spec_text, String.append_empty]
  | cons p rest ih =>
      intro acc
      simp only [List.foldl_cons, pdf_spec_text, ih, String.append_assoc]

theorem docx_foldl_eq (paras : List String) :
    ∀ acc : String,
      paras.foldl (fun text para => text ++ para ++ "\n") acc
        = acc ++ docx_spec_text paras := by
  induction paras with
  | nil => intro acc; simp [docx_spec_text, String.append_empty]
  | cons p rest ih =>
      intro acc
      rw [List.foldl_cons, ih, docx_spec_text]
      simp [String.append_assoc]

/-- Claim C1 (code bug in `src/app.py`): the spec requires a model response
with `matching_score` outside [0,100] to fail schema validation (scenario C:
score 150 yields SchemaViolation), and the source's own field description
says "A score from 0 to 100"; but `matching_score` is declared as a plain
`int` with no range constraint, so `get_ollama_analysis` validates the
response and returns it unchanged, score 150 included, with no error
shown. -/
theorem score_out_of_range_is_accepted :
    (get_ollama_analysis (.content (.ok scenarioC_json))).result = some scenarioC_json ∧
    (get_ollama_analysis (.content (.ok scenarioC_json))).errorShown = none :=
  ⟨rfl, rfl⟩

/-- Claim C2 (code bug in `src/app.py`): the spec requires a
`suitability_status` outside the four enumerated values to fail schema
validation, and the source's own field description says "One of: 'Highly
Recommended', 'Qualified', 'Potential Match', 'Not Qualified'"; but the
field is declared as a plain `str` with no enum constraint, so
`get_ollama_analysis` accepts the status `"Banana"` and returns the
response unchanged with no error shown. -/
theorem unknown_status_is_accepted :
    (get_ollama_analysis (.content (.ok badStatus_json))).result = some badStatus_json ∧
    (get_ollama_analysis (.content (.ok badStatus_json))).errorShown = none :=
  ⟨rfl, rfl⟩

/-- Claim C3: every outcome of the model call is either converted at the
`get_ollama_analysis` boundary into a no-result signal (`none`) together
with a human-readable message, or is a fully validated success: the
returned value is exactly the `model_dump` of a record that passed
`AnalysisResult.validate`, so no partial or best-guess result is ever
returned.  No exception propagates: the embedded analyzer is a total
function, mirroring the `except ollama.ResponseError` /
`except json.JSONDecodeError` / `except Exception` chain that ends every
failure path in `st.error(...)` followed by `return None`. -/
theorem analysis_failures_are_contained (resp : ModelResponse) :
    ((get_ollama_analysis resp).result = none ∧
      ((get_ollama_analysis resp).errorShown).isSome = true)
    ∨ (∃ v r, resp = .content (.ok v) ∧ AnalysisResult.validate v = some r ∧
        (get_ollama_analysis resp).result = some r.model_dump ∧
        (get_ollama_analysis resp).errorShown = none) := by
  match resp with
  | .responseError e => exact Or.inl ⟨rfl, rfl⟩
  | .unexpectedError e => exact Or.inl ⟨rfl, rfl⟩
  | .content (.error e) => exact Or.inl ⟨rfl, rfl⟩
  | .content (.ok v) =>
      cases hv : AnalysisResult.validate v with
      | none =>
          refine Or.inl ⟨?_, ?_⟩ <;> simp [get_ollama_analysis, hv]
      | some r =>
          exact Or.inr ⟨v, r, rfl, hv, by simp [get_ollama_analysis, hv],
            by simp [get_ollama_analysis, hv]⟩

/-- Claim C4: a model response string that is not syntactically valid JSON
(`json.loads` raises `JSONDecodeError`) makes `get_ollama_analysis` return
`None` with the parse-failure message shown, for every such response; the
analyzer performs a single pass with no retry (it is one call of a pure
function on the single model response), and no exception escapes. -/
theorem malformed_output_yields_no_result (e : String) :
    (get_ollama_analysis (.content (.error e))).result = none ∧
    (get_ollama_analysis (.content (.error e))).errorShown =
      some "Failed to parse LLM response. The model did not return valid JSON." :=
  ⟨rfl, rfl⟩

/-- Claim C5 counterexample: the claim says every parsed JSON object with a
wrong-typed required field fails; but `stringScore_json` has
`matching_score` bound to the JSON *string* `"60"` — the wrong type for an
integer field — and pydantic's default lax coercion accepts it, so
`get_ollama_analysis` returns a success (with the string coerced to the
integer 60) instead of failing. -/
theorem coercible_string_score_accepted :
    (get_ollama_analysis (.content (.ok stringScore_json))).result =
      some (AnalysisResult.model_dump ⟨60, ["Python"], [], [], "Qualified"⟩) ∧
    (get_ollama_analysis (.content (.ok stringScore_json))).errorShown = none :=
  ⟨rfl, rfl⟩

/-- Claim C5 (amended): for every parsed JSON object in which a required
`AnalysisResult` field is missing, or a field's value is rejected by the
field's (lax) type check — a non-coercible value, e.g. a non-numeric
string for the integer field, a non-list for a list field, or a non-string
list element — `get_ollama_analysis` fails: it returns no result and shows
an error message, with no partial result returned. -/
theorem missing_or_uncoercible_field_fails (kvs : List (String × PyVal))
    (h : (pyLookup kvs "matching_score").bind lax_int = none
       ∨ (pyLookup kvs "existing_skills").bind lax_str_list = none
       ∨ (pyLookup kvs "missing_skills").bind lax_str_list = none
       ∨ (pyLookup kvs "recommended_improvements").bind lax_str_list = none
       ∨ (pyLookup kvs "suitability_status").bind lax_str = none) :
    (get_ollama_analysis (.content (.ok (.pyDict kvs)))).result = none ∧
    ((get_ollama_analysis (.content (.ok (.pyDict kvs)))).errorShown).isSome = true := by
  have hval : AnalysisResult.validate (.pyDict kvs) = none := by
    simp only [AnalysisResult.validate]
    revert h
    generalize (pyLookup kvs "matching_score").bind lax_int = o1
    generalize (pyLookup kvs "existing_skills").bind lax_str_list = o2
    generalize (pyLookup kvs "missing_skills").bind lax_str_list = o3
    generalize (pyLookup kvs "recommended_improvements").bind lax_str_list = o4
    generalize (pyLookup kvs "suitability_status").bind lax_str = o5
    intro h
    rcases o1 with _ | ms <;> rcases o2 with _ | ex <;> rcases o3 with _ | mi <;>
      rcases o4 with _ | ri <;> rcases o5 with _ | ss <;> simp_all
  refine ⟨?_, ?_⟩ <;> simp [get_ollama_analysis, hval]

/-- Witness for the amended C5 theorem at a concrete input: the empty dict
is missing every required field, and the analyzer rejects it. -/
theorem missing_or_uncoercible_field_fails_witness :
    ((pyLookup [] "matching_score").bind lax_int = none
       ∨ (pyLookup [] "existing_skills").bind lax_str_list = none
       ∨ (pyLookup [] "missing_skills").bind lax_str_list = none
       ∨ (pyLookup [] "recommended_improvements").bind lax_str_list = none
       ∨ (pyLookup [] "suitability_status").bind lax_str = none) ∧
    ((get_ollama_analysis (.content (.ok (.pyDict [])))).result = none ∧
      ((get_ollama_analysis (.content (.ok (.pyDict [])))).errorShown).isSome = true) :=
  ⟨Or.inl rfl, missing_or_uncoercible_field_fails [] (Or.inl rfl)⟩

/-- Claim C6: scenario A — the mocked, schema-conforming model response is
returned unchanged by `get_ollama_analysis`, i.e. parse-validate-dump acts
as the identity on this conforming object, with no error shown. -/
theorem scenario_a_identity :
    get_ollama_analysis (.content (.ok scenarioA_json)) = ⟨some scenarioA_json, none⟩ :=
  rfl

/-- Claim C7: whenever the job-description input or the extracted resume
text is empty, the analyze-button branch of `main` warns and never invokes
`get_ollama_analysis` (the resulting action is `warnMissingInput`, not
`runAnalysis`). -/
theorem empty_input_blocks_analysis (jd_input resume_text : String)
    (h : jd_input = "" ∨ resume_text = "") :
    main_analyze_step jd_input resume_text = .warnMissingInput := by
  unfold main_analyze_step
  rw [if_pos h]

/-- Witness for C7 at a concrete input: empty job description, non-empty
resume text. -/
theorem empty_input_blocks_analysis_witness :
    (("" : String) = "" ∨ ("resume" : String) = "") ∧
    main_analyze_step "" "resume" = .warnMissingInput :=
  ⟨Or.inl rfl, empty_input_blocks_analysis "" "resume" (Or.inl rfl)⟩

/-- Claim C8: for every word-processing document (given by its list of
paragraph texts in document order), `extract_text_from_docx` returns the
paragraphs' texts in document order, each followed by exactly one newline
— the text prescribed by the spec's `docx_spec_text`. -/
theorem docx_text_is_ordered_paragraphs (paras : List String) :
    extract_text_from_docx paras = docx_spec_text paras := by
  unfold extract_text_from_docx
  rw [docx_foldl_eq, String.empty_append]

/-- Claim C9: for every PDF (given by its list of per-page extracted texts
in page order, a page with no extractable text contributing `""` as
`page.extract_text()` does), `extract_text_from_pdf` returns the
page-ordered concatenation prescribed by the spec's `pdf_spec_text`.
Determinism/idempotence is immediate: the embedded extractor is a pure
function of the page texts, so extracting the same bytes twice yields the
same output. -/
theorem pdf_text_is_ordered_pages (pages : List String) :
    extract_text_from_pdf pages = pdf_spec_text pages := by
  unfold extract_text_from_pdf
  rw [pdf_foldl_eq, String.empty_append]

/-- Claim C10: extra keys beyond the five schema fields do not make
validation fail and are silently dropped — appending extra, non-schema
keys to a dict leaves `AnalysisResult.validate` unchanged — and every
successful return of `get_ollama_analysis` is the `model_dump` of the
validated record, a dict with exactly the five schema keys. -/
theorem extra_keys_are_dropped (kvs extra : List (String × PyVal))
    (h : ∀ p ∈ extra, p.1 ∉ analysis_fields) :
    AnalysisResult.validate (.pyDict (kvs ++ extra)) = AnalysisResult.validate (.pyDict kvs) ∧
    ∀ r, AnalysisResult.validate (.pyDict kvs) = some r →
      (get_ollama_analysis (.content (.ok (.pyDict (kvs ++ extra))))).result =
          some r.model_dump ∧
      pyKeys r.model_dump = analysis_fields := by
  have hl : ∀ k, k ∈ analysis_fields →
      pyLookup (kvs ++ extra) k = pyLookup kvs k := by
    intro k hk
    refine pyLookup_append (fun p hp hpk => ?_) kvs
    exact h p hp (by rw [hpk]; exact hk)
  have hsame : AnalysisResult.validate (.pyDict (kvs ++ extra))
      = AnalysisResult.validate (.pyDict kvs) := by
    simp only [AnalysisResult.validate]
    rw [hl "matching_score" (by simp [analysis_fields]),
        hl "existing_skills" (by simp [analysis_fields]),
        hl "missing_skills" (by simp [analysis_fields]),
        hl "recommended_improvements" (by simp [analysis_fields]),
        hl "suitability_status" (by simp [analysis_fields])]
  refine ⟨hsame, fun r hr => ⟨?_, ?_⟩⟩
  · simp [get_ollama_analysis, hsame, hr]
  · simp [AnalysisResult.model_dump, pyKeys, analysis_fields]

/-- Witness for C10 at a concrete input: the scenario A response with one
extra key is validated identically, and the success dict has exactly the
five schema keys. -/
theorem extra_keys_are_dropped_witness :
    (∀ p ∈ extra_note, p.1 ∉ analysis_fields) ∧
    (AnalysisResult.validate (.pyDict (scenarioA_kvs ++ extra_note))
        = AnalysisResult.validate (.pyDict scenarioA_kvs) ∧
      ∀ r, AnalysisResult.validate (.pyDict scenarioA_kvs) = some r →
        (get_ollama_analysis (.content (.ok (.pyDict (scenarioA_kvs ++ extra_note))))).result
            = some r.model_dump ∧
        pyKeys r.model_dump = analysis_fields) := by
  have h : ∀ p ∈ extra_note, p.1 ∉ analysis_fields := by
    intro p hp
    simp only [extra_note, List.mem_singleton] at hp
    subst hp
    simp [analysis_fields]
  exact ⟨h, extra_keys_are_dropped scenarioA_kvs extra_note h⟩

end JobAnalyzer
